import Mathlib

/-!
Shallow embedding of the bloglab server's Credential & Session Manager
(`src/unnamed/part_000`) together with the identity-scoped write routes it
guards.  Routes are pure state transformers over an explicit `Db` value; the
argon2 and jsonwebtoken collaborators are modelled executably below.
-/

namespace Bloglab

/-! ## Model of the argon2 collaborator

`argon2.hash` produces a salted digest string; `argon2.verify` re-derives and
compares.  The digest is modelled as the character list `'#' * salt ++ ':' ++
password`, which captures per-record salting and deterministic verification.
One-wayness of the real KDF is outside the model. -/

def hashChars (p : List Char) (salt : Nat) : List Char :=
  List.replicate salt '#' ++ ':' :: p

/-- Model of `argon2.hash(password)`; the `salt` argument stands for the random
per-call salt the library draws. -/
def argonHash (password : String) (salt : Nat) : String :=
  ⟨hashChars password.data salt⟩

/-- Model of `argon2.verify(hash, password)`: strip the salt prefix and compare
the remainder against the candidate password. -/
def argonVerify (hash password : String) : Bool :=
  hash.data.dropWhile (fun c => c == '#') == ':' :: password.data

/-! ## Model of the jsonwebtoken collaborator

A token is represented by its claims plus the secret it was signed with;
signature validity is modelled as equality of that secret with the verifier's
secret.  `exp` is the optional expiry claim checked against the current time. -/

structure JwtPayload where
  userId : Nat
  username : String
deriving DecidableEq, Repr

structure JwtToken where
  payload : JwtPayload
  exp : Option Nat
  secret : String
deriving DecidableEq, Repr

/-- Model of `jwt.sign(payload, secret)` as called at sign-in: no `expiresIn`
option is passed, so no expiry claim is set. -/
def jwtSign (payload : JwtPayload) (secret : String) : JwtToken :=
  { payload := payload, exp := none, secret := secret }

/-- Model of `jwt.verify(token, secret)` at time `now`: the signature must
check out, and when an `exp` claim is present it must lie in the future. -/
def jwtVerify (t : JwtToken) (secret : String) (now : Nat) : Option JwtPayload :=
  if t.secret = secret then
    match t.exp with
    | none => some t.payload
    | some e => if now < e then some t.payload else none
  else none

/-! ## Data model (relational store) -/

structure User where
  userId : Nat
  username : String
  hashedPassword : String
  email : String
deriving DecidableEq, Repr

structure Post where
  postId : Nat
  userId : Nat
  imageUrl : String
  summary : String
  title : String
  body : String
deriving DecidableEq, Repr

structure CommentRow where
  commentId : Nat
  postId : Nat
  userId : Nat
  content : String
deriving DecidableEq, Repr

structure LikeRow where
  postId : Nat
  userId : Nat
deriving DecidableEq, Repr

structure Db where
  users : List User
  posts : List Post
  comments : List CommentRow
  likePosts : List LikeRow
deriving DecidableEq, Repr

/-! ## Errors

`ClientError(status, message)` is the repository's own error class; a failed
`insert` under the `users.username` uniqueness constraint surfaces from pg as a
unique-violation error that the route forwards unmodified to `next(err)`. -/

inductive ApiError where
  | clientError (status : Nat) (message : String)
  | uniqueViolation
deriving DecidableEq, Repr

/-- Modelled from the spec: the repository's `error-middleware` file is not
under `src/`.  Per the spec's error taxonomy (§7), a 400 client error is a
`ValidationError`, a 401 client error an `AuthenticationError`, a uniqueness
violation from the persistence collaborator a `ConflictError`, and any other
infrastructure failure a generic `DependencyError` server fault. -/
inductive ErrorKind where
  | validationError
  | conflictError
  | authenticationError
  | dependencyError
deriving DecidableEq, Repr

/-- Modelled from the spec: classification the error middleware applies to an
error reaching the request boundary. -/
def classify : ApiError → ErrorKind
  | .clientError 401 _ => .authenticationError
  | .clientError _ _ => .validationError
  | .uniqueViolation => .conflictError

/-! ## Routes -/

/-- JS falsiness of an optional request-body string: absent or empty. -/
def falsy : Option String → Bool
  | none => true
  | some s => s == ""

/-- Public projection returned by the sign-up `returning` clause:
`"userId", "username", "email"` and nothing else. -/
structure PublicUser where
  userId : Nat
  username : String
  email : String
deriving DecidableEq, Repr

/-- JSON rendering of the sign-up response body, as field-name/value pairs. -/
def PublicUser.fields (r : PublicUser) : List (String × String) :=
  [("userId", toString r.userId), ("username", r.username), ("email", r.email)]

/-- Collaborator-assigned serial primary key for a fresh `users` row. -/
def freshUserId (db : Db) : Nat :=
  db.users.foldr (fun u m => max u.userId m) 0 + 1

/-- `POST /api/auth/sign-up`: guard the three required fields, hash the
password, insert the row (subject to the `username` uniqueness constraint) and
return the public projection with status 201.  `salt` models the random salt
drawn inside `argon2.hash`. -/
def signUp (db : Db) (username password email : Option String) (salt : Nat) :
    Except ApiError (Nat × PublicUser) × Db :=
  if falsy username || falsy password || falsy email then
    (.error (.clientError 400 "username password, and email are required fields"), db)
  else
    let u := username.getD ""
    let p := password.getD ""
    let e := email.getD ""
    if db.users.any (fun w => w.username == u) then
      (.error .uniqueViolation, db)
    else
      let uid := freshUserId db
      let row : User := ⟨uid, u, argonHash p salt, e⟩
      (.ok (201, ⟨uid, u, e⟩), { db with users := db.users ++ [row] })

/-- `POST /api/auth/sign-in`: guard the two fields, look the user up by
username, verify the password against the stored hash, and on success sign
`{userId, username}` and answer `{token, user: payload}`.  All three failure
paths throw `ClientError(401, 'invalid login')`. -/
def signIn (db : Db) (username password : Option String) (secret : String) :
    Except ApiError (JwtToken × JwtPayload) × Db :=
  if falsy username || falsy password then
    (.error (.clientError 401 "invalid login"), db)
  else
    let u := username.getD ""
    let p := password.getD ""
    match db.users.find? (fun w => w.username == u) with
    | none => (.error (.clientError 401 "invalid login"), db)
    | some user =>
      if argonVerify user.hashedPassword p then
        let payload : JwtPayload := ⟨user.userId, u⟩
        (.ok (jwtSign payload secret, payload), db)
      else
        (.error (.clientError 401 "invalid login"), db)

/-! ## Authorization gate and guarded routes -/

/-- Modelled from the spec: the repository's `authorization-middleware` file is
not under `src/` (only its requirer is).  Per the spec (§4.1 Authorize, §6 gate
contract), the gate verifies the presented token's signature against the server
secret and yields the embedded identity; on any verification failure — missing,
malformed (both `none` here), bad-signature or expired token — it fails with a
401 `AuthenticationError` before the downstream handler runs. -/
def authorize (token : Option JwtToken) (secret : String) (now : Nat) :
    Except ApiError JwtPayload :=
  match token with
  | none => .error (.clientError 401 "authentication required")
  | some t =>
    match jwtVerify t secret now with
    | none => .error (.clientError 401 "authentication required")
    | some payload => .ok payload

/-- Modelled from the spec: the gate viewed as a request step over the store —
the spec states it mutates no state, so it threads the store through
unchanged. -/
def authorizeStep (db : Db) (token : Option JwtToken) (secret : String) (now : Nat) :
    Except ApiError JwtPayload × Db :=
  (authorize token secret now, db)

/-- Middleware composition: the handler runs only if the gate admits the
request; otherwise the gate's error is the response and the store is
untouched. -/
def gated {α : Type} (db : Db) (token : Option JwtToken) (secret : String) (now : Nat)
    (handler : JwtPayload → Db → Except ApiError α × Db) :
    Except ApiError α × Db :=
  match authorize token secret now with
  | .error e => (.error e, db)
  | .ok payload => handler payload db

/-- Collaborator-assigned serial primary key for a fresh `posts` row. -/
def freshPostId (db : Db) : Nat :=
  db.posts.foldr (fun p m => max p.postId m) 0 + 1

/-- Collaborator-assigned serial primary key for a fresh `comments` row. -/
def freshCommentId (db : Db) : Nat :=
  db.comments.foldr (fun c m => max c.commentId m) 0 + 1

/-- Handler of `POST /api/posts` (behind the gate): guard the four required
fields, insert the post attributed to the token's `userId`, answer 201. -/
def createPostHandler (user : JwtPayload)
    (imageUrl summary title body : Option String) (db : Db) :
    Except ApiError (Nat × Post) × Db :=
  if falsy imageUrl || falsy summary || falsy title || falsy body then
    (.error (.clientError 400 "imageUrl, summary, title and body are required fields"), db)
  else
    let row : Post := ⟨freshPostId db, user.userId, imageUrl.getD "", summary.getD "",
      title.getD "", body.getD ""⟩
    (.ok (201, row), { db with posts := db.posts ++ [row] })

/-- `POST /api/posts` with the authorization middleware in front. -/
def createPost (db : Db) (token : Option JwtToken) (secret : String) (now : Nat)
    (imageUrl summary title body : Option String) :
    Except ApiError (Nat × Post) × Db :=
  gated db token secret now (createPostHandler · imageUrl summary title body ·)

/-- Handler of `POST /api/comments` (behind the gate): guard `postId`,
`userId` and `content` (JS falsiness: 0 or absent), insert the comment,
answer 201 with the row merged with the author's username. -/
def createCommentHandler (user : JwtPayload) (postId : Nat) (content : Option String)
    (db : Db) : Except ApiError (Nat × CommentRow × Option String) × Db :=
  if postId == 0 || user.userId == 0 || falsy content then
    (.error (.clientError 400 "postId, userId, and content are required fields"), db)
  else
    let row : CommentRow := ⟨freshCommentId db, postId, user.userId, content.getD ""⟩
    let uname := (db.users.find? (fun w => w.userId == user.userId)).map (·.username)
    (.ok (201, row, uname), { db with comments := db.comments ++ [row] })

/-- `POST /api/comments` with the authorization middleware in front. -/
def createComment (db : Db) (token : Option JwtToken) (secret : String) (now : Nat)
    (postId : Nat) (content : Option String) :
    Except ApiError (Nat × CommentRow × Option String) × Db :=
  gated db token secret now (createCommentHandler · postId content ·)

/-- Handler of `POST /api/likes` (behind the gate): guard `postId` and
`userId`, then `insert … on conflict do nothing returning *` against the
`likePosts` (postId, userId) key — when the row already exists nothing is
inserted and `returning` yields no row — and answer 201 with the (possibly
absent) new row. -/
def createLikeHandler (user : JwtPayload) (postId : Nat) (db : Db) :
    Except ApiError (Nat × Option LikeRow) × Db :=
  if postId == 0 || user.userId == 0 then
    (.error (.clientError 400 "postId and userId are required fields"), db)
  else
    if db.likePosts.any (fun l => l.postId == postId && l.userId == user.userId) then
      (.ok (201, none), db)
    else
      let row : LikeRow := ⟨postId, user.userId⟩
      (.ok (201, some row), { db with likePosts := db.likePosts ++ [row] })

/-- `POST /api/likes` with the authorization middleware in front. -/
def createLike (db : Db) (token : Option JwtToken) (secret : String) (now : Nat)
    (postId : Nat) : Except ApiError (Nat × Option LikeRow) × Db :=
  gated db token secret now (createLikeHandler · postId ·)

/-- Handler of `DELETE /api/likes/:postId` (behind the gate): delete the
caller's like rows for the post, answer 204 with the deleted rows. -/
def deleteLikeHandler (user : JwtPayload) (postId : Nat) (db : Db) :
    Except ApiError (Nat × List LikeRow) × Db :=
  let hit := fun (l : LikeRow) => l.postId == postId && l.userId == user.userId
  (.ok (204, db.likePosts.filter hit),
    { db with likePosts := db.likePosts.filter (fun l => !hit l) })

/-- `DELETE /api/likes/:postId` with the authorization middleware in front. -/
def deleteLike (db : Db) (token : Option JwtToken) (secret : String) (now : Nat)
    (postId : Nat) : Except ApiError (Nat × List LikeRow) × Db :=
  gated db token secret now (deleteLikeHandler · postId ·)

/-- Uniqueness invariant of the likes store: no two rows share the
(postId, userId) key pair. -/
def LikesUnique (db : Db) : Prop :=
  (db.likePosts.map (fun l => (l.postId, l.userId))).Nodup

instance (db : Db) : Decidable (LikesUnique db) := by
  unfold LikesUnique; infer_instance

/-! ## Supporting lemmas -/

lemma length_argonHash (p : String) (s : Nat) :
    (argonHash p s).length = s + 1 + p.length := by
  show (hashChars p.data s).length = s + 1 + p.data.length
  simp [hashChars]
  omega

lemma dropWhile_hashChars (p : List Char) (s : Nat) :
    (hashChars p s).dropWhile (fun c => c == '#') = ':' :: p := by
  induction s with
  | zero =>
    show List.dropWhile (fun c => c == '#') (':' :: p) = ':' :: p
    rw [List.dropWhile_cons]
    simp
  | succ n ih =>
    show List.dropWhile (fun c => c == '#') ('#' :: hashChars p n) = ':' :: p
    rw [List.dropWhile_cons]
    simpa using ih

lemma argonVerify_correct (p : String) (s : Nat) :
    argonVerify (argonHash p s) p = true := by
  show ((hashChars p.data s).dropWhile (fun c => c == '#') == ':' :: p.data) = true
  rw [dropWhile_hashChars]
  simp

lemma argonVerify_wrong (p q : String) (s : Nat) (h : q ≠ p) :
    argonVerify (argonHash p s) q = false := by
  show ((hashChars p.data s).dropWhile (fun c => c == '#') == ':' :: q.data) = false
  rw [dropWhile_hashChars]
  simp only [beq_eq_false_iff_ne, ne_eq, List.cons.injEq, true_and]
  intro hd
  exact h (String.ext hd.symm)

lemma argonHash_ne_password (p : String) (s : Nat) : argonHash p s ≠ p := by
  intro h
  have hl := congrArg String.length h
  rw [length_argonHash] at hl
  omega

lemma argonHash_salt_inj (p : String) (s1 s2 : Nat) (h : s1 ≠ s2) :
    argonHash p s1 ≠ argonHash p s2 := by
  intro hh
  have hl := congrArg String.length hh
  rw [length_argonHash, length_argonHash] at hl
  omega

lemma falsy_some_ne {s : String} (h : s ≠ "") : falsy (some s) = false := by
  simp [falsy, h]

lemma gated_error {α : Type} (db : Db) (token : Option JwtToken) (secret : String)
    (now : Nat) (handler : JwtPayload → Db → Except ApiError α × Db) (e : ApiError)
    (h : authorize token secret now = .error e) :
    gated db token secret now handler = (.error e, db) := by
  unfold gated
  rw [h]

lemma gated_ok {α : Type} (db : Db) (token : Option JwtToken) (secret : String)
    (now : Nat) (handler : JwtPayload → Db → Except ApiError α × Db) (payload : JwtPayload)
    (h : authorize token secret now = .ok payload) :
    gated db token secret now handler = handler payload db := by
  unfold gated
  rw [h]

lemma authorize_error_shape (token : Option JwtToken) (secret : String) (now : Nat)
    (err : ApiError) (h : authorize token secret now = .error err) :
    err = .clientError 401 "authentication required" := by
  cases token with
  | none => simpa [authorize] using h.symm
  | some t =>
    cases hv : jwtVerify t secret now with
    | none =>
      simp only [authorize, hv] at h
      simp_all
    | some p => simp [authorize, hv] at h

/-! ## Concrete sample store used by witnesses -/

def sampleUser : User := ⟨1, "alice", argonHash "correcthorse" 2, "a@x.com"⟩

def sampleDb : Db := ⟨[sampleUser], [], [], []⟩

/-! ## Claim theorems -/

/-- C1: for a registered account, sign-in with a wrong password and sign-in
with an unknown login name fail with the very same error — same kind
(`ClientError`), same status 401, same message "invalid login" — and neither
touches the store, so the caller cannot tell the two apart. -/
theorem auth_failures_indistinguishable
    (db : Db) (secret name pw wrong unk any : String) (salt : Nat) (user : User)
    (hname : name ≠ "") (hwrong : wrong ≠ "") (hunk : unk ≠ "") (hany : any ≠ "")
    (hfind : db.users.find? (fun w => w.username == name) = some user)
    (hhash : user.hashedPassword = argonHash pw salt)
    (hne : wrong ≠ pw)
    (hmiss : db.users.find? (fun w => w.username == unk) = none) :
    signIn db (some name) (some wrong) secret
        = (.error (.clientError 401 "invalid login"), db)
      ∧ signIn db (some unk) (some any) secret
        = (.error (.clientError 401 "invalid login"), db) := by
  constructor
  · simp only [signIn, falsy_some_ne hname, falsy_some_ne hwrong, Bool.or_self,
      Bool.false_or, if_false, Option.getD_some, hfind, hhash,
      argonVerify_wrong pw wrong salt hne]
    simp
  · simp only [signIn, falsy_some_ne hunk, falsy_some_ne hany, Bool.or_self,
      Bool.false_or, if_false, Option.getD_some, hmiss]
    simp

/-- C1 witness: concrete store with one account. -/
theorem auth_failures_indistinguishable_witness :
    signIn sampleDb (some "alice") (some "wrong") "s"
        = (.error (.clientError 401 "invalid login"), sampleDb)
      ∧ signIn sampleDb (some "bob") (some "anything") "s"
        = (.error (.clientError 401 "invalid login"), sampleDb) :=
  auth_failures_indistinguishable sampleDb "s" "alice" "correcthorse" "wrong"
    "bob" "anything" 2 sampleUser (by decide) (by decide) (by decide) (by decide)
    (by decide) rfl (by decide) (by decide)

/-- C2: for a registered account, sign-in with the correct password succeeds,
answering the signed token and the identity payload, and verifying that token
with the same server secret recovers exactly the `userId` that was embedded. -/
theorem sign_in_token_roundtrip
    (db : Db) (secret name pw : String) (salt now : Nat) (user : User)
    (hname : name ≠ "") (hpw : pw ≠ "")
    (hfind : db.users.find? (fun w => w.username == name) = some user)
    (hhash : user.hashedPassword = argonHash pw salt) :
    signIn db (some name) (some pw) secret
        = (.ok (jwtSign ⟨user.userId, name⟩ secret, ⟨user.userId, name⟩), db)
      ∧ jwtVerify (jwtSign ⟨user.userId, name⟩ secret) secret now
        = some ⟨user.userId, name⟩ := by
  constructor
  · simp only [signIn, falsy_some_ne hname, falsy_some_ne hpw, Bool.or_self,
      Bool.false_or, if_false, Option.getD_some, hfind, hhash,
      argonVerify_correct pw salt]
    simp
  · simp [jwtVerify, jwtSign]

/-- C2 witness: the sample account signs in and the token round-trips. -/
theorem sign_in_token_roundtrip_witness :
    signIn sampleDb (some "alice") (some "correcthorse") "s"
        = (.ok (jwtSign ⟨1, "alice"⟩ "s", ⟨1, "alice"⟩), sampleDb)
      ∧ jwtVerify (jwtSign ⟨1, "alice"⟩ "s") "s" 1000 = some ⟨1, "alice"⟩ :=
  sign_in_token_roundtrip sampleDb "s" "alice" "correcthorse" 2 1000 sampleUser
    (by decide) (by decide) (by decide) rfl

/-- C3: a sign-up whose login name is already taken fails with the
persistence collaborator's uniqueness violation, which the (spec-modelled)
error middleware classifies as a `ConflictError` — a kind of its own, distinct
from the generic server fault — and no row is written. -/
theorem duplicate_sign_up_conflict
    (db : Db) (u p e : String) (salt : Nat)
    (hu : u ≠ "") (hp : p ≠ "") (he : e ≠ "")
    (hdup : db.users.any (fun w => w.username == u) = true) :
    signUp db (some u) (some p) (some e) salt = (.error .uniqueViolation, db)
      ∧ classify .uniqueViolation = .conflictError
      ∧ ErrorKind.conflictError ≠ ErrorKind.dependencyError := by
  refine ⟨?_, rfl, by decide⟩
  simp only [signUp, falsy_some_ne hu, falsy_some_ne hp, falsy_some_ne he,
    Bool.or_self, Bool.false_or, if_false, Option.getD_some, hdup]
  simp

/-- C3 witness: registering the sample account's login name again. -/
theorem duplicate_sign_up_conflict_witness :
    signUp sampleDb (some "alice") (some "other") (some "b@x.com") 7
        = (.error .uniqueViolation, sampleDb)
      ∧ classify .uniqueViolation = .conflictError
      ∧ ErrorKind.conflictError ≠ ErrorKind.dependencyError :=
  duplicate_sign_up_conflict sampleDb "alice" "other" "b@x.com" 7
    (by decide) (by decide) (by decide) (by decide)

/-- C4: a sign-up with any of the three fields absent or empty fails with the
400 `ClientError` — classified as a `ValidationError` — and the store is
returned unchanged: no row is written. -/
theorem sign_up_missing_field_validation
    (db : Db) (username password email : Option String) (salt : Nat)
    (h : (falsy username || falsy password || falsy email) = true) :
    signUp db username password email salt
        = (.error (.clientError 400 "username password, and email are required fields"), db)
      ∧ classify (.clientError 400 "username password, and email are required fields")
        = .validationError := by
  refine ⟨?_, rfl⟩
  simp [signUp, h]

/-- C4 witness: missing email field. -/
theorem sign_up_missing_field_validation_witness :
    signUp sampleDb (some "carol") (some "pw") none 3
        = (.error (.clientError 400 "username password, and email are required fields"), sampleDb)
      ∧ classify (.clientError 400 "username password, and email are required fields")
        = .validationError :=
  sign_up_missing_field_validation sampleDb (some "carol") (some "pw") none 3 (by decide)

/-- C6: a successful sign-up answers 201 with exactly the created account's
public projection — the collaborator-assigned id, the login name and the email
— whose rendered JSON fields are exactly `userId`, `username`, `email`; the
hash is stored in the row but is no part of the response. -/
theorem sign_up_response_public_fields
    (db : Db) (u p e : String) (salt : Nat)
    (hu : u ≠ "") (hp : p ≠ "") (he : e ≠ "")
    (hfresh : db.users.any (fun w => w.username == u) = false) :
    signUp db (some u) (some p) (some e) salt
        = (.ok (201, ⟨freshUserId db, u, e⟩),
            { db with users := db.users ++ [⟨freshUserId db, u, argonHash p salt, e⟩] })
      ∧ (PublicUser.fields ⟨freshUserId db, u, e⟩).map Prod.fst
        = ["userId", "username", "email"] := by
  refine ⟨?_, rfl⟩
  simp only [signUp, falsy_some_ne hu, falsy_some_ne hp, falsy_some_ne he,
    Bool.or_self, Bool.false_or, if_false, Option.getD_some, hfresh]
  simp

/-- C6 witness: registering a fresh account on the sample store. -/
theorem sign_up_response_public_fields_witness :
    signUp sampleDb (some "carol") (some "pw") (some "c@x.com") 3
        = (.ok (201, ⟨2, "carol", "c@x.com"⟩),
            { sampleDb with
              users := sampleDb.users ++ [⟨2, "carol", argonHash "pw" 3, "c@x.com"⟩] })
      ∧ (PublicUser.fields ⟨2, "carol", "c@x.com"⟩).map Prod.fst
        = ["userId", "username", "email"] :=
  sign_up_response_public_fields sampleDb "carol" "pw" "c@x.com" 3
    (by decide) (by decide) (by decide) (by decide)

/-- C7: a valid sign-up with a fresh login name succeeds and stores the salted
hash of the password; the stored hash differs from the raw password, hashing
the same password under two salts stores two different hashes, and both verify
against the original password. -/
theorem registration_hash_salted
    (db : Db) (u p e : String) (salt1 salt2 : Nat)
    (hu : u ≠ "") (hp : p ≠ "") (he : e ≠ "")
    (hfresh : db.users.any (fun w => w.username == u) = false)
    (hsalt : salt1 ≠ salt2) :
    signUp db (some u) (some p) (some e) salt1
        = (.ok (201, ⟨freshUserId db, u, e⟩),
            { db with users := db.users ++ [⟨freshUserId db, u, argonHash p salt1, e⟩] })
      ∧ argonHash p salt1 ≠ p
      ∧ argonHash p salt2 ≠ p
      ∧ argonHash p salt1 ≠ argonHash p salt2
      ∧ argonVerify (argonHash p salt1) p = true
      ∧ argonVerify (argonHash p salt2) p = true := by
  refine ⟨?_, argonHash_ne_password p salt1, argonHash_ne_password p salt2,
    argonHash_salt_inj p salt1 salt2 hsalt,
    argonVerify_correct p salt1, argonVerify_correct p salt2⟩
  simp only [signUp, falsy_some_ne hu, falsy_some_ne hp, falsy_some_ne he,
    Bool.or_self, Bool.false_or, if_false, Option.getD_some, hfresh]
  simp

/-- C7 witness: fresh registration, two concrete salts. -/
theorem registration_hash_salted_witness :
    signUp sampleDb (some "carol") (some "pw") (some "c@x.com") 3
        = (.ok (201, ⟨2, "carol", "c@x.com"⟩),
            { sampleDb with
              users := sampleDb.users ++ [⟨2, "carol", argonHash "pw" 3, "c@x.com"⟩] })
      ∧ argonHash "pw" 3 ≠ "pw"
      ∧ argonHash "pw" 5 ≠ "pw"
      ∧ argonHash "pw" 3 ≠ argonHash "pw" 5
      ∧ argonVerify (argonHash "pw" 3) "pw" = true
      ∧ argonVerify (argonHash "pw" 5) "pw" = true :=
  registration_hash_salted sampleDb "carol" "pw" "c@x.com" 3 5
    (by decide) (by decide) (by decide) (by decide) (by decide)

/-- Token accepted by the sample store's secret "s". -/
def sampleToken : JwtToken := jwtSign ⟨1, "alice"⟩ "s"

/-- Sample store in which alice (userId 1) has already liked post 42. -/
def sampleDbLiked : Db := ⟨[sampleUser], [], [], [⟨42, 1⟩]⟩

/-- C5: whenever the authorization gate rejects the token, every
identity-scoped write route — create post, create comment, like, unlike —
answers the gate's 401 `AuthenticationError` with the store unchanged: the
downstream handler never runs. -/
theorem gate_blocks_unauthorized_writes
    (db : Db) (token : Option JwtToken) (secret : String) (now : Nat)
    (imageUrl summary title body content : Option String) (postId : Nat)
    (err : ApiError)
    (h : authorize token secret now = .error err) :
    err = .clientError 401 "authentication required"
      ∧ classify err = .authenticationError
      ∧ createPost db token secret now imageUrl summary title body = (.error err, db)
      ∧ createComment db token secret now postId content = (.error err, db)
      ∧ createLike db token secret now postId = (.error err, db)
      ∧ deleteLike db token secret now postId = (.error err, db) := by
  have herr : err = .clientError 401 "authentication required" :=
    authorize_error_shape token secret now err h
  exact ⟨herr, by rw [herr]; rfl,
    gated_error db token secret now _ err h,
    gated_error db token secret now _ err h,
    gated_error db token secret now _ err h,
    gated_error db token secret now _ err h⟩

/-- C5 witness: a request carrying no token is blocked on all four routes. -/
theorem gate_blocks_unauthorized_writes_witness :
    ApiError.clientError 401 "authentication required"
        = .clientError 401 "authentication required"
      ∧ classify (.clientError 401 "authentication required") = .authenticationError
      ∧ createPost sampleDb none "s" 0 (some "i") (some "s") (some "t") (some "b")
        = (.error (.clientError 401 "authentication required"), sampleDb)
      ∧ createComment sampleDb none "s" 0 42 (some "c")
        = (.error (.clientError 401 "authentication required"), sampleDb)
      ∧ createLike sampleDb none "s" 0 42
        = (.error (.clientError 401 "authentication required"), sampleDb)
      ∧ deleteLike sampleDb none "s" 0 42
        = (.error (.clientError 401 "authentication required"), sampleDb) :=
  gate_blocks_unauthorized_writes sampleDb none "s" 0 (some "i") (some "s")
    (some "t") (some "b") (some "c") 42 (.clientError 401 "authentication required") rfl

/-- C8: the authorization gate mutates no state — as a request step it returns
the store it was given — and running it twice on the same valid token yields
the same identity both times. -/
theorem authorize_pure_idempotent
    (db : Db) (token : Option JwtToken) (secret : String) (now : Nat)
    (id1 : JwtPayload)
    (h : (authorizeStep db token secret now).1 = .ok id1) :
    (authorizeStep db token secret now).2 = db
      ∧ (authorizeStep (authorizeStep db token secret now).2 token secret now).1
        = .ok id1 :=
  ⟨rfl, h⟩

/-- C8 witness: the sample token through the gate twice. -/
theorem authorize_pure_idempotent_witness :
    (authorizeStep sampleDb (some sampleToken) "s" 5).2 = sampleDb
      ∧ (authorizeStep (authorizeStep sampleDb (some sampleToken) "s" 5).2
          (some sampleToken) "s" 5).1 = .ok ⟨1, "alice"⟩ :=
  authorize_pure_idempotent sampleDb (some sampleToken) "s" 5 ⟨1, "alice"⟩ rfl

/-- C9: the likes route preserves the at-most-one-row-per-(postId, userId)
invariant, and an authorized like of a post the caller already liked inserts
nothing — the store comes back unchanged — while still answering 201 with an
empty `returning` result. -/
theorem like_unique_idempotent
    (db : Db) (token : Option JwtToken) (secret : String) (now : Nat)
    (postId : Nat) (payload : JwtPayload)
    (huniq : LikesUnique db) :
    LikesUnique (createLike db token secret now postId).2
      ∧ (authorize token secret now = .ok payload → payload.userId ≠ 0 → postId ≠ 0 →
          (⟨postId, payload.userId⟩ : LikeRow) ∈ db.likePosts →
          createLike db token secret now postId = (.ok (201, none), db)) := by
  constructor
  · cases hA : authorize token secret now with
    | error e =>
      rw [show createLike db token secret now postId = (.error e, db) from
        gated_error db token secret now _ e hA]
      exact huniq
    | ok pl =>
      rw [show createLike db token secret now postId = createLikeHandler pl postId db from
        gated_ok db token secret now _ pl hA]
      by_cases hg : (postId == 0 || pl.userId == 0) = true
      · simpa [createLikeHandler, hg] using huniq
      · simp only [Bool.not_eq_true] at hg
        by_cases hy : (db.likePosts.any
            fun l => l.postId == postId && l.userId == pl.userId) = true
        · simpa [createLikeHandler, hg, hy] using huniq
        · simp only [Bool.not_eq_true] at hy
          simp only [createLikeHandler, hg, hy, Bool.false_eq_true, if_false]
          simp only [LikesUnique] at huniq ⊢
          rw [List.map_append, List.nodup_append]
          refine ⟨huniq, List.nodup_singleton _, ?_⟩
          intro k hk hk1
          simp only [List.map_cons, List.map_nil, List.mem_singleton] at hk1
          obtain ⟨l, hl, hlk⟩ := List.mem_map.mp hk
          have hlp : (fun l => l.postId == postId && l.userId == pl.userId) l = true := by
            rw [hk1] at hlk
            have h1 : l.postId = postId := congrArg Prod.fst hlk
            have h2 : l.userId = pl.userId := congrArg Prod.snd hlk
            simp [h1, h2]
          have hco : (db.likePosts.any
              fun x => x.postId == postId && x.userId == pl.userId) = true :=
            List.any_eq_true.mpr ⟨l, hl, hlp⟩
          rw [hy] at hco
          exact Bool.false_ne_true hco
  · intro hA huid hpost hmem
    rw [show createLike db token secret now postId = createLikeHandler payload postId db from
      gated_ok db token secret now _ payload hA]
    have hguard : (postId == 0 || payload.userId == 0) = false := by
      simp [hpost, huid]
    have hany : db.likePosts.any
        (fun l => l.postId == postId && l.userId == payload.userId) = true := by
      rw [List.any_eq_true]
      exact ⟨⟨postId, payload.userId⟩, hmem, by simp⟩
    simp [createLikeHandler, hguard, hany]

/-- C9 witness: alice likes post 42 a second time. -/
theorem like_unique_idempotent_witness :
    LikesUnique (createLike sampleDbLiked (some sampleToken) "s" 5 42).2
      ∧ createLike sampleDbLiked (some sampleToken) "s" 5 42
        = (.ok (201, none), sampleDbLiked) := by
  have h := like_unique_idempotent sampleDbLiked (some sampleToken) "s" 5 42
    ⟨1, "alice"⟩ (by decide)
  exact ⟨h.1, h.2 rfl (by decide) (by decide) (by decide)⟩

/-- C10: a token issued by sign-in is signed over exactly the identity payload
with no expiry claim, so for any verification time whatsoever it verifies
successfully under the unchanged secret. -/
theorem token_no_expiry
    (db db2 : Db) (username password : Option String) (secret : String)
    (tok : JwtToken) (payload : JwtPayload)
    (h : signIn db username password secret = (.ok (tok, payload), db2)) :
    tok = jwtSign payload secret
      ∧ tok.exp = none
      ∧ ∀ now : Nat, jwtVerify tok secret now = some payload := by
  have htok : tok = jwtSign payload secret := by
    simp only [signIn] at h
    split at h
    · exact absurd h (by simp)
    · split at h
      · exact absurd h (by simp)
      · split at h
        · simp only [Prod.mk.injEq, Except.ok.injEq] at h
          obtain ⟨⟨h1, h2⟩, -⟩ := h
          subst h2
          exact h1.symm
        · exact absurd h (by simp)
  refine ⟨htok, by rw [htok]; rfl, fun now => by rw [htok]; simp [jwtVerify, jwtSign]⟩

/-- C10 witness: alice's token carries no expiry and verifies at a late time. -/
theorem token_no_expiry_witness :
    (jwtSign ⟨1, "alice"⟩ "s").exp = none
      ∧ jwtVerify (jwtSign ⟨1, "alice"⟩ "s") "s" 999999 = some ⟨1, "alice"⟩ := by
  have h := token_no_expiry sampleDb sampleDb (some "alice") (some "correcthorse")
    "s" (jwtSign ⟨1, "alice"⟩ "s") ⟨1, "alice"⟩ rfl
  exact ⟨h.2.1, h.2.2 999999⟩

end Bloglab
